import Mathlib

/-!
Shallow embedding of the core of the Freelancers Tax & Income Estimator
(`src/utils.py`) and proofs about it.  Python floats are modelled as
rationals (`ℚ`); the unbounded upper bracket (`float('inf')`) is modelled
as `Option ℚ` with `none` for infinity; Python exceptions (`KeyError`,
`ZeroDivisionError`, failed fetches) are modelled with `Option`, `none`
standing for a raised exception.
-/

namespace FreelancerTax

/-- A tax bracket: `(lower, upper, rate)` from `TAX_BRACKETS`; `upper = none`
models `float('inf')`. -/
structure Bracket where
  lower : ℚ
  upper : Option ℚ
  rate : ℚ
deriving DecidableEq, Repr

/-- The `"United States"` entry of `TAX_BRACKETS` in `utils.py`. -/
def TAX_BRACKETS_US : List Bracket :=
  [ ⟨0, some 11000, 10/100⟩,
    ⟨11001, some 44725, 12/100⟩,
    ⟨44726, some 95375, 22/100⟩,
    ⟨95376, some 182100, 24/100⟩,
    ⟨182101, some 231250, 32/100⟩,
    ⟨231251, some 578125, 35/100⟩,
    ⟨578126, none, 37/100⟩ ]

/-- One loop iteration of `calculate_tax`: the contribution of a single
bracket.  In Python: `if income > lower: tax += min(income - lower, upper - lower) * rate`;
with `upper = inf`, `min(income - lower, inf) = income - lower`. -/
def bracketTax (income : ℚ) (b : Bracket) : ℚ :=
  if b.lower < income then
    (match b.upper with
      | none => income - b.lower
      | some u => min (income - b.lower) (u - b.lower)) * b.rate
  else 0

/-- `calculate_tax(income, brackets)` from `utils.py`: fold of the per-bracket
contributions starting from `tax = 0`. -/
def calculate_tax (income : ℚ) (brackets : List Bracket) : ℚ :=
  brackets.foldl (fun tax b => tax + bracketTax income b) 0

/-- Validity of a single bracket: rate in `[0,1]` and `lower ≤ upper`. -/
def bracketOK (b : Bracket) : Bool :=
  decide (0 ≤ b.rate) && decide (b.rate ≤ 1) &&
    (match b.upper with
      | none => true
      | some u => decide (b.lower ≤ u))

/-- Brackets are ordered and non-overlapping: each bracket has a finite upper
bound not exceeding the next bracket's lower bound. -/
def orderedOK : List Bracket → Bool
  | [] => true
  | [_] => true
  | a :: b :: rest =>
    (match a.upper with
      | none => false
      | some u => decide (u ≤ b.lower)) && orderedOK (b :: rest)

/-- The `BracketTable` invariant of the spec (§3): ordered, non-overlapping
brackets with rates in `[0,1]` and `lower ≤ upper`. -/
def bracketTableInv (bs : List Bracket) : Bool :=
  bs.all bracketOK && orderedOK bs

theorem calculate_tax_eq_sum (income : ℚ) (bs : List Bracket) :
    calculate_tax income bs = (bs.map (bracketTax income)).sum := by
  suffices h : ∀ (l : List Bracket) (acc : ℚ),
      l.foldl (fun tax b => tax + bracketTax income b) acc
        = acc + (l.map (bracketTax income)).sum by
    simpa [calculate_tax] using h bs 0
  intro l
  induction l with
  | nil => intro acc; simp
  | cons b t ih =>
    intro acc
    simp [List.foldl_cons, ih, add_assoc]

theorem bracketTax_nonneg (income : ℚ) (b : Bracket) (hb : bracketOK b = true) :
    0 ≤ bracketTax income b := by
  simp only [bracketOK, Bool.and_eq_true, decide_eq_true_eq] at hb
  obtain ⟨⟨hr0, _⟩, hu⟩ := hb
  unfold bracketTax
  split
  case isTrue h =>
    apply mul_nonneg _ hr0
    cases hup : b.upper with
    | none => simp [hup]; linarith
    | some u =>
      simp only [hup]
      rw [hup] at hu
      simp only at hu
      rw [le_min_iff]
      constructor <;> [linarith; linarith [decide_eq_true_eq.mp hu]]
  case isFalse h => exact le_refl 0

theorem bracketTax_mono (i1 i2 : ℚ) (b : Bracket) (hb : bracketOK b = true)
    (h12 : i1 ≤ i2) : bracketTax i1 b ≤ bracketTax i2 b := by
  have hnn := bracketTax_nonneg i2 b hb
  simp only [bracketOK, Bool.and_eq_true, decide_eq_true_eq] at hb
  obtain ⟨⟨hr0, _⟩, _⟩ := hb
  unfold bracketTax
  by_cases h1 : b.lower < i1
  · have h2 : b.lower < i2 := lt_of_lt_of_le h1 h12
    rw [if_pos h1, if_pos h2]
    apply mul_le_mul_of_nonneg_right _ hr0
    cases hup : b.upper with
    | none => simpa using h12
    | some u =>
      simp only
      exact min_le_min (by linarith) le_rfl
  · rw [if_neg h1]
    unfold bracketTax at hnn
    exact hnn

/-- Claim C1, as stated, is false: on the table actually in the code (whose
lower bounds are `11001` and `44726`, one above the spec example's `11000` and
`44725` boundaries), `calculate_tax 50000` is not `6307.50`. -/
theorem C1_counterexample :
    calculate_tax 50000 TAX_BRACKETS_US ≠ 630750/100 := by
  norm_num [calculate_tax, TAX_BRACKETS_US, bracketTax, min_def]

/-- Claim C1 (amended): `calculate_tax` applied to income `50000` with the
United States bracket table returns `6307.16`, the value of
`11000*0.10 + (44725-11001)*0.12 + (50000-44726)*0.22`. -/
theorem C1_calculate_tax_us_50000 :
    calculate_tax 50000 TAX_BRACKETS_US = 630716/100
      ∧ 630716/100
          = (11000 : ℚ) * (10/100) + (44725 - 11001) * (12/100)
              + (50000 - 44726) * (22/100) := by
  constructor
  · norm_num [calculate_tax, TAX_BRACKETS_US, bracketTax, min_def]
  · norm_num

/-- Claim C2: for every bracket table satisfying the `BracketTable` invariant
(ordered, non-overlapping brackets with rates in `[0,1]` and `lower ≤ upper`),
`calculate_tax` is non-decreasing in income. -/
theorem C2_calculate_tax_monotone (bs : List Bracket) (i1 i2 : ℚ)
    (hinv : bracketTableInv bs = true) (h12 : i1 ≤ i2) :
    calculate_tax i1 bs ≤ calculate_tax i2 bs := by
  have hall : ∀ b ∈ bs, bracketOK b = true := by
    simp only [bracketTableInv, Bool.and_eq_true, List.all_eq_true] at hinv
    exact hinv.1
  rw [calculate_tax_eq_sum, calculate_tax_eq_sum]
  exact List.sum_le_sum fun b hb => bracketTax_mono i1 i2 b (hall b hb) h12

/-- Witness for C2: the US table satisfies the invariant, and the monotonicity
theorem applies to it at incomes `1 ≤ 2`. -/
theorem C2_witness :
    bracketTableInv TAX_BRACKETS_US = true ∧ (1:ℚ) ≤ 2
      ∧ calculate_tax 1 TAX_BRACKETS_US ≤ calculate_tax 2 TAX_BRACKETS_US :=
  ⟨by norm_num [bracketTableInv, bracketOK, orderedOK, TAX_BRACKETS_US],
    by norm_num,
    C2_calculate_tax_monotone TAX_BRACKETS_US 1 2
      (by norm_num [bracketTableInv, bracketOK, orderedOK, TAX_BRACKETS_US])
      (by norm_num)⟩

/-- Claim C3, as stated over every bracket table, is false: a bracket with a
negative lower bound contributes tax at income `0`. -/
theorem C3_counterexample :
    (0:ℚ) ≤ 0 ∧ calculate_tax 0 [⟨-1, some 0, 1⟩] ≠ 0 := by
  constructor
  · exact le_refl 0
  · norm_num [calculate_tax, bracketTax, min_def]

/-- Claim C3 (amended): for every income `≤ 0` and every bracket table in
which every bracket's lower bound is `≥ 0`, `calculate_tax` returns `0`. -/
theorem C3_zero_tax_nonpos_income (income : ℚ) (bs : List Bracket)
    (hinc : income ≤ 0) (hlow : ∀ b ∈ bs, 0 ≤ b.lower) :
    calculate_tax income bs = 0 := by
  rw [calculate_tax_eq_sum]
  apply List.sum_eq_zero
  intro x hx
  rw [List.mem_map] at hx
  obtain ⟨b, hb, rfl⟩ := hx
  have : ¬ b.lower < income := not_lt.mpr (le_trans hinc (hlow b hb))
  simp [bracketTax, this]

/-- Witness for C3 (amended): income `-5` with the US table yields tax `0`. -/
theorem C3_witness :
    ((-5 : ℚ) ≤ 0 ∧ ∀ b ∈ TAX_BRACKETS_US, 0 ≤ b.lower)
      ∧ calculate_tax (-5) TAX_BRACKETS_US = 0 :=
  ⟨⟨by norm_num, by norm_num [TAX_BRACKETS_US]⟩,
    C3_zero_tax_nonpos_income (-5) TAX_BRACKETS_US (by norm_num)
      (by norm_num [TAX_BRACKETS_US])⟩

/-- A quarterly due date: in the code it is the f-string
`f"<Month> 15, <year>"`; modelled structurally as month name, day and year. -/
structure DueDate where
  month : String
  day : ℕ
  year : ℤ
deriving DecidableEq, Repr

/-- One entry of the dict returned by `calculate_quarterly_tax`. -/
structure QuarterEntry where
  due_date : DueDate
  amount : ℚ
deriving DecidableEq, Repr

/-- The dict returned by `calculate_quarterly_tax`, with exactly the keys
`"Q1"`..`"Q4"`. -/
structure QuarterlyPlan where
  q1 : QuarterEntry
  q2 : QuarterEntry
  q3 : QuarterEntry
  q4 : QuarterEntry
deriving DecidableEq, Repr

/-- `calculate_quarterly_tax(annual_income, tax_amount)` from `utils.py`.
`datetime.datetime.now().year` is a real-time input and is modelled as the
explicit parameter `current_year`. -/
def calculate_quarterly_tax (annual_income tax_amount : ℚ)
    (current_year : ℤ) : QuarterlyPlan :=
  let quarterly_amount := tax_amount / 4
  { q1 := ⟨⟨"April", 15, current_year⟩, quarterly_amount⟩
    q2 := ⟨⟨"June", 15, current_year⟩, quarterly_amount⟩
    q3 := ⟨⟨"September", 15, current_year⟩, quarterly_amount⟩
    q4 := ⟨⟨"January", 15, current_year + 1⟩, quarterly_amount⟩ }

/-- The dict returned by `calculate_retirement_impact`. -/
structure RetirementProjection where
  future_value : ℚ
  tax_savings : ℚ
  total_contribution : ℚ
deriving DecidableEq, Repr

/-- `calculate_retirement_impact(amount, years, rate=0.07)` from `utils.py`. -/
def calculate_retirement_impact (amount : ℚ) (years : ℕ)
    (rate : ℚ := 7/100) : RetirementProjection :=
  { future_value := amount * (1 + rate) ^ years
    tax_savings := amount * (22/100)
    total_contribution := amount * years }

/-- Claim C4: for every annual tax amount (and every current year),
`calculate_quarterly_tax` returns exactly the four entries `Q1`..`Q4`, each
with amount `tax_amount / 4`, due April 15, June 15, September 15 of the
current year and January 15 of the following year; an annual tax of `4000`
yields four installments of `1000`. -/
theorem C4_quarterly_plan (annual_income tax_amount : ℚ) (y : ℤ) :
    calculate_quarterly_tax annual_income tax_amount y
      = { q1 := ⟨⟨"April", 15, y⟩, tax_amount / 4⟩
          q2 := ⟨⟨"June", 15, y⟩, tax_amount / 4⟩
          q3 := ⟨⟨"September", 15, y⟩, tax_amount / 4⟩
          q4 := ⟨⟨"January", 15, y + 1⟩, tax_amount / 4⟩ }
      ∧ (calculate_quarterly_tax annual_income 4000 y).q1.amount = 1000
      ∧ (calculate_quarterly_tax annual_income 4000 y).q2.amount = 1000
      ∧ (calculate_quarterly_tax annual_income 4000 y).q3.amount = 1000
      ∧ (calculate_quarterly_tax annual_income 4000 y).q4.amount = 1000 := by
  refine ⟨rfl, ?_, ?_, ?_, ?_⟩ <;> norm_num [calculate_quarterly_tax]

/-- Claim C10: the result of `calculate_quarterly_tax` is independent of its
`annual_income` argument (same installments and due dates for any two income
values, given the same tax amount and current year). -/
theorem C10_quarterly_ignores_income (a1 a2 tax_amount : ℚ) (y : ℤ) :
    calculate_quarterly_tax a1 tax_amount y
      = calculate_quarterly_tax a2 tax_amount y := rfl

/-- Claim C8: `calculate_retirement_impact` returns
`future_value = amount * (1 + rate)^years`, `tax_savings = amount * 0.22` and
`total_contribution = amount * years`; at `(10000, 10, 0.07)` the future value
is `10000 * 1.07^10 ≈ 19671.51`, tax savings `2200`, total contribution
`100000`. -/
theorem C8_retirement_impact (amount : ℚ) (years : ℕ) (rate : ℚ) :
    (calculate_retirement_impact amount years rate).future_value
        = amount * (1 + rate) ^ years
      ∧ (calculate_retirement_impact amount years rate).tax_savings
        = amount * (22/100)
      ∧ (calculate_retirement_impact amount years rate).total_contribution
        = amount * years
      ∧ (calculate_retirement_impact 10000 10 (7/100)).future_value
        = 10000 * (107/100) ^ 10
      ∧ |(calculate_retirement_impact 10000 10 (7/100)).future_value
          - 1967151/100| < 1/100
      ∧ (calculate_retirement_impact 10000 10 (7/100)).tax_savings = 2200
      ∧ (calculate_retirement_impact 10000 10 (7/100)).total_contribution
        = 100000 := by
  refine ⟨rfl, rfl, rfl, by norm_num [calculate_retirement_impact], ?_, ?_, ?_⟩
    <;> norm_num [calculate_retirement_impact, abs_lt]

/-- A rate table: ISO code to rate relative to one USD, modelled as an
association list (Python dict; lookup of a missing key raises `KeyError`,
modelled as `none`). -/
abbrev RateTable := List (String × ℚ)

/-- The static fallback table `CURRENCY_RATES` from `utils.py`. -/
def CURRENCY_RATES : RateTable :=
  [ ("USD", 1),
    ("EUR", 92/100),
    ("GBP", 79/100),
    ("CAD", 135/100),
    ("AUD", 152/100),
    ("JPY", 15150/100),
    ("CHF", 90/100),
    ("NZD", 165/100),
    ("CNY", 723/100),
    ("INR", 8334/100) ]

/-- `get_exchange_rates` from `utils.py`: the live fetch either succeeds with
a rate table or fails for any reason (network error, bad status, non-success
payload, missing credential); every failure is caught and the static
`CURRENCY_RATES` table is returned instead.  The fetch outcome is modelled as
an `Option RateTable` parameter, `none` meaning the fetch failed. -/
def get_exchange_rates (fetched : Option RateTable) : RateTable :=
  fetched.getD CURRENCY_RATES

/-- The `amount_usd` step of `convert_currency`: skip the division when
`from_currency == "USD"`, otherwise `amount / rates[from_currency]`.
A missing key (`KeyError`) or a zero rate (`ZeroDivisionError`) is `none`. -/
def toUSD (rates : RateTable) (amount : ℚ) (from_currency : String) :
    Option ℚ :=
  if from_currency = "USD" then some amount
  else match rates.lookup from_currency with
    | none => none
    | some r => if r = 0 then none else some (amount / r)

/-- The `final_amount` step of `convert_currency`: skip the multiplication
when `to_currency == "USD"`, otherwise `amount_usd * rates[to_currency]`. -/
def fromUSD (rates : RateTable) (amount_usd : ℚ) (to_currency : String) :
    Option ℚ :=
  if to_currency = "USD" then some amount_usd
  else (rates.lookup to_currency).map (fun r => amount_usd * r)

/-- The USD-pivot arithmetic shared by the `try` body and the `except`
fallback of `convert_currency`. -/
def pivotConvert (rates : RateTable) (amount : ℚ)
    (from_currency to_currency : String) : Option ℚ :=
  (toUSD rates amount from_currency).bind
    (fun usd => fromUSD rates usd to_currency)

/-- `convert_currency(amount, from_currency, to_currency)` from `utils.py`:
equal currencies short-circuit; otherwise the pivot arithmetic runs on the
table from `get_exchange_rates`; if it raises, the `except` block reruns the
same arithmetic on `CURRENCY_RATES`, whose own exceptions propagate to the
caller (`none`). -/
def convert_currency (fetched : Option RateTable) (amount : ℚ)
    (from_currency to_currency : String) : Option ℚ :=
  if from_currency = to_currency then some amount
  else match pivotConvert (get_exchange_rates fetched) amount
      from_currency to_currency with
    | some v => some v
    | none => pivotConvert CURRENCY_RATES amount from_currency to_currency

theorem lookup_mem {l : RateTable} {c : String} {r : ℚ}
    (h : l.lookup c = some r) : (c, r) ∈ l := by
  induction l with
  | nil => simp [List.lookup] at h
  | cons p t ih =>
    obtain ⟨k, v⟩ := p
    rw [List.lookup] at h
    by_cases hck : c = k
    · simp [hck] at h
      simp [hck, h]
    · have : (c == k) = false := beq_false_of_ne hck
      rw [this] at h
      exact List.mem_cons_of_mem _ (ih h)

theorem currency_rates_nonzero {c : String} {r : ℚ}
    (h : CURRENCY_RATES.lookup c = some r) : r ≠ 0 := by
  have hmem := lookup_mem h
  have hall : ∀ p ∈ CURRENCY_RATES, p.2 ≠ 0 := by
    intro p hp
    simp only [CURRENCY_RATES, List.mem_cons, List.not_mem_nil, or_false] at hp
    rcases hp with h | h | h | h | h | h | h | h | h | h <;> subst h <;> norm_num
  exact hall (c, r) hmem

theorem convert_currency_eq_of_pivot (fetched : Option RateTable)
    (amount v : ℚ) (f t : String) (hft : f ≠ t)
    (h : pivotConvert (get_exchange_rates fetched) amount f t = some v) :
    convert_currency fetched amount f t = some v := by
  simp [convert_currency, hft, h]

theorem pivotConvert_none_of_to (rates : RateTable) (amount : ℚ)
    (f t : String) (htU : t ≠ "USD") (hlt : rates.lookup t = none) :
    pivotConvert rates amount f t = none := by
  unfold pivotConvert
  cases toUSD rates amount f <;> simp [fromUSD, htU, hlt]

theorem pivotConvert_self (rates : RateTable) (amount : ℚ) (f : String)
    (h : f = "USD" ∨ ∃ r, rates.lookup f = some r ∧ r ≠ 0) :
    pivotConvert rates amount f f = some amount := by
  rcases h with h | ⟨r, hr, hr0⟩
  · simp [pivotConvert, toUSD, fromUSD, h]
  · by_cases hU : f = "USD"
    · simp [pivotConvert, toUSD, fromUSD, hU]
    · simp [pivotConvert, toUSD, fromUSD, hU, hr, hr0, div_mul_cancel₀]

/-- Claim C5: when the live fetch fails, `convert_currency` returns exactly
the USD-pivot arithmetic over the static fallback table `CURRENCY_RATES`,
and the failure is not propagated to the caller (the result is `some _`),
for currency codes present in the fallback table. -/
theorem C5_fallback_conversion (amount : ℚ) (f t : String)
    (hf : (CURRENCY_RATES.lookup f).isSome)
    (ht : (CURRENCY_RATES.lookup t).isSome) :
    convert_currency none amount f t
        = pivotConvert CURRENCY_RATES amount f t
      ∧ (convert_currency none amount f t).isSome := by
  obtain ⟨u, hu⟩ : ∃ u, toUSD CURRENCY_RATES amount f = some u := by
    by_cases hfU : f = "USD"
    · exact ⟨amount, by simp [toUSD, hfU]⟩
    · obtain ⟨rf, hrf⟩ := Option.isSome_iff_exists.mp hf
      exact ⟨amount / rf,
        by simp [toUSD, hfU, hrf, currency_rates_nonzero hrf]⟩
  obtain ⟨v, hv⟩ : ∃ v, pivotConvert CURRENCY_RATES amount f t = some v := by
    by_cases htU : t = "USD"
    · exact ⟨u, by simp [pivotConvert, hu, fromUSD, htU]⟩
    · obtain ⟨rt, hrt⟩ := Option.isSome_iff_exists.mp ht
      exact ⟨u * rt, by simp [pivotConvert, hu, fromUSD, htU, hrt]⟩
  by_cases hft : f = t
  · subst hft
    have hself : pivotConvert CURRENCY_RATES amount f f = some amount := by
      apply pivotConvert_self
      by_cases hfU : f = "USD"
      · exact Or.inl hfU
      · obtain ⟨rf, hrf⟩ := Option.isSome_iff_exists.mp hf
        exact Or.inr ⟨rf, hrf, currency_rates_nonzero hrf⟩
    rw [hself]
    exact ⟨by simp [convert_currency], by simp [convert_currency]⟩
  · have hc := convert_currency_eq_of_pivot none amount v f t hft hv
    rw [hc, hv]
    exact ⟨rfl, rfl⟩

/-- Witness for C5: `EUR` and `GBP` are in the fallback table, and on fetch
failure the conversion equals the fallback pivot arithmetic and succeeds. -/
theorem C5_witness :
    ((CURRENCY_RATES.lookup "EUR").isSome
        ∧ (CURRENCY_RATES.lookup "GBP").isSome)
      ∧ convert_currency none 100 "EUR" "GBP"
          = pivotConvert CURRENCY_RATES 100 "EUR" "GBP"
      ∧ (convert_currency none 100 "EUR" "GBP").isSome :=
  ⟨⟨rfl, rfl⟩, C5_fallback_conversion 100 "EUR" "GBP" rfl rfl⟩

/-- Claim C6: round-trip identity of `convert_currency` over exact rational
arithmetic: with a stable rate table in which both codes have nonzero rates,
converting `X` from `A` to `B` and back yields `X` exactly. -/
theorem C6_round_trip (rates : RateTable) (X : ℚ) (A B : String)
    (rA rB : ℚ) (hA : rates.lookup A = some rA) (hA0 : rA ≠ 0)
    (hB : rates.lookup B = some rB) (hB0 : rB ≠ 0) :
    (convert_currency (some rates) X A B).bind
      (fun v => convert_currency (some rates) v B A) = some X := by
  by_cases hAB : A = B
  · subst hAB
    simp [convert_currency]
  · have hBA : B ≠ A := Ne.symm hAB
    by_cases hA' : A = "USD" <;> by_cases hB' : B = "USD"
    · exact absurd (hA'.trans hB'.symm) hAB
    · have h1 : pivotConvert rates X A B = some (X * rB) := by
        simp [pivotConvert, toUSD, fromUSD, hA', hB', hB]
      have h2 : pivotConvert rates (X * rB) B A = some X := by
        simp [pivotConvert, toUSD, fromUSD, hA', hB', hB, hB0,
          mul_div_assoc, div_self hB0]
      rw [convert_currency_eq_of_pivot (some rates) X (X * rB) A B hAB h1]
      simpa using convert_currency_eq_of_pivot (some rates) (X * rB) X B A
        hBA h2
    · have h1 : pivotConvert rates X A B = some (X / rA) := by
        simp [pivotConvert, toUSD, fromUSD, hA', hB', hA, hA0]
      have h2 : pivotConvert rates (X / rA) B A = some X := by
        simp [pivotConvert, toUSD, fromUSD, hA', hB', hA,
          div_mul_cancel₀ X hA0]
      rw [convert_currency_eq_of_pivot (some rates) X (X / rA) A B hAB h1]
      simpa using convert_currency_eq_of_pivot (some rates) (X / rA) X B A
        hBA h2
    · have h1 : pivotConvert rates X A B = some (X / rA * rB) := by
        simp [pivotConvert, toUSD, fromUSD, hA', hB', hA, hA0, hB]
      have h2 : pivotConvert rates (X / rA * rB) B A = some X := by
        simp [pivotConvert, toUSD, fromUSD, hA', hB', hA, hB, hB0,
          div_mul_cancel₀ X hA0]
      rw [convert_currency_eq_of_pivot (some rates) X (X / rA * rB) A B
        hAB h1]
      simpa using convert_currency_eq_of_pivot (some rates) (X / rA * rB) X
        B A hBA h2

/-- Witness for C6: converting `100` from `EUR` to `GBP` and back over the
static table returns `100` exactly. -/
theorem C6_witness :
    (CURRENCY_RATES.lookup "EUR" = some (92/100) ∧ (92/100 : ℚ) ≠ 0
        ∧ CURRENCY_RATES.lookup "GBP" = some (79/100) ∧ (79/100 : ℚ) ≠ 0)
      ∧ (convert_currency (some CURRENCY_RATES) 100 "EUR" "GBP").bind
          (fun v => convert_currency (some CURRENCY_RATES) v "GBP" "EUR")
        = some 100 :=
  ⟨⟨rfl, by norm_num, rfl, by norm_num⟩,
    C6_round_trip CURRENCY_RATES 100 "EUR" "GBP" (92/100) (79/100)
      rfl (by norm_num) rfl (by norm_num)⟩

/-- Claim C7: a currency code present in neither the live table nor the
fallback table makes `convert_currency` (with distinct currencies) fail with
an unknown-key error (modelled as `none`, the propagated `KeyError`), rather
than silently returning a defaulted value. -/
theorem C7_unknown_code_fails (fetched : Option RateTable) (amount : ℚ)
    (f t : String) (hft : f ≠ t)
    (h : ((get_exchange_rates fetched).lookup f = none
            ∧ CURRENCY_RATES.lookup f = none)
        ∨ ((get_exchange_rates fetched).lookup t = none
            ∧ CURRENCY_RATES.lookup t = none)) :
    convert_currency fetched amount f t = none := by
  rcases h with ⟨hlf, hcf⟩ | ⟨hlt, hct⟩
  · have hfU : f ≠ "USD" := by
      intro hfu
      rw [hfu] at hcf
      simp [CURRENCY_RATES, List.lookup] at hcf
    simp [convert_currency, hft, pivotConvert, toUSD, hfU, hlf, hcf]
  · have htU : t ≠ "USD" := by
      intro htu
      rw [htu] at hct
      simp [CURRENCY_RATES, List.lookup] at hct
    rw [convert_currency, if_neg hft,
      pivotConvert_none_of_to _ amount f t htU hlt,
      pivotConvert_none_of_to _ amount f t htU hct]

/-- Witness for C7: the code `XYZ` is in neither table, and converting from
it fails. -/
theorem C7_witness :
    ("XYZ" ≠ "EUR"
        ∧ ((get_exchange_rates none).lookup "XYZ" = none
            ∧ CURRENCY_RATES.lookup "XYZ" = none))
      ∧ convert_currency none 7 "XYZ" "EUR" = none :=
  ⟨⟨by decide, rfl, rfl⟩,
    C7_unknown_code_fails none 7 "XYZ" "EUR" (by decide)
      (Or.inl ⟨rfl, rfl⟩)⟩

/-- An expense entry; `get_tax_optimization_tips` reads only the
`"amount"` field of each expense dict. -/
structure Expense where
  name : String
  amount : ℚ
deriving DecidableEq, Repr

/-- Python `"key" in deductions` on the deductions dict. -/
def hasDeduction (deductions : List (String × ℚ)) (key : String) : Bool :=
  deductions.any (fun p => p.1 == key)

/-- `get_tax_optimization_tips(income, expenses, deductions)` from
`utils.py`: the fixed-order rule list, every rule evaluated on each call,
conditional segments concatenated in program order. -/
def get_tax_optimization_tips (income : ℚ) (expenses : List Expense)
    (deductions : List (String × ℚ)) : List String :=
  let total_deductions : ℚ := (deductions.map Prod.snd).sum
  let expense_frac : ℚ :=
    if 0 < income then (expenses.map Expense.amount).sum / income else 0
  (if hasDeduction deductions "Retirement Contributions" then []
    else if 100000 < income then
      ["💰 High Income Tip: Maximize your retirement contributions with a SEP IRA or Solo 401(k) to reduce taxable income by up to $69,000"]
    else
      ["💡 Consider contributing to a retirement account (Traditional IRA: $7,000 limit) to reduce taxable income"])
  ++ (if hasDeduction deductions "Home Office" then []
    else
      ["🏠 If you work from home, you may be eligible for the home office deduction - typically 10-20% of home expenses"])
  ++ (if hasDeduction deductions "Health Insurance" then []
    else
      ["🏥 Self-employed individuals can deduct 100% of health insurance premiums for themselves and family"])
  ++ (if expense_frac < 2/10 then
      ["📊 Your expense ratio seems low. Consider tracking all eligible business expenses including:",
        "   • Software subscriptions and tools",
        "   • Professional development and training",
        "   • Office supplies and equipment"]
    else [])
  ++ (if 100000 < income then
      ["💼 Consider forming an S-Corporation to potentially reduce self-employment tax"]
      ++ (if hasDeduction deductions "Professional Services" then []
        else
          ["⚖️ At your income level, consulting with a tax professional could lead to significant savings"])
    else [])
  ++ ["📅 Remember to make quarterly estimated tax payments to avoid penalties"]
  ++ (if hasDeduction deductions "Professional Development" then []
    else
      ["📚 Educational expenses related to maintaining or improving your skills are tax-deductible"])
  ++ (if hasDeduction deductions "Marketing & Advertising" then []
    else
      ["📣 Marketing and advertising costs are fully deductible business expenses"])

/-- Claim C9: at income `150000`, empty deduction selection and expenses
summing to `15000` (a 10% expense ratio), the advisor returns exactly the
twelve tips of the spec's §4.6 rule order: high-income retirement tip, home
office, health insurance, under-tracking tip with its three sub-suggestions,
entity structuring, professional consultation, the quarterly reminder,
education, and marketing. -/
theorem C9_advisor_tips (expenses : List Expense)
    (hsum : (expenses.map Expense.amount).sum = 15000) :
    get_tax_optimization_tips 150000 expenses []
      = ["💰 High Income Tip: Maximize your retirement contributions with a SEP IRA or Solo 401(k) to reduce taxable income by up to $69,000",
        "🏠 If you work from home, you may be eligible for the home office deduction - typically 10-20% of home expenses",
        "🏥 Self-employed individuals can deduct 100% of health insurance premiums for themselves and family",
        "📊 Your expense ratio seems low. Consider tracking all eligible business expenses including:",
        "   • Software subscriptions and tools",
        "   • Professional development and training",
        "   • Office supplies and equipment",
        "💼 Consider forming an S-Corporation to potentially reduce self-employment tax",
        "⚖️ At your income level, consulting with a tax professional could lead to significant savings",
        "📅 Remember to make quarterly estimated tax payments to avoid penalties",
        "📚 Educational expenses related to maintaining or improving your skills are tax-deductible",
        "📣 Marketing and advertising costs are fully deductible business expenses"] := by
  norm_num [get_tax_optimization_tips, hasDeduction, hsum]

/-- Witness for C9: a single expense of `15000` satisfies the sum hypothesis
and yields the twelve tips, in order, headed by the high-income retirement
tip. -/
theorem C9_witness :
    ((([⟨"Office", 15000⟩] : List Expense).map Expense.amount).sum = 15000)
      ∧ (get_tax_optimization_tips 150000 [⟨"Office", 15000⟩] []).length = 12
      ∧ (get_tax_optimization_tips 150000 [⟨"Office", 15000⟩] []).head?
        = some "💰 High Income Tip: Maximize your retirement contributions with a SEP IRA or Solo 401(k) to reduce taxable income by up to $69,000" := by
  have hsum : (([⟨"Office", 15000⟩] : List Expense).map Expense.amount).sum
      = 15000 := by simp
  refine ⟨hsum, ?_, ?_⟩ <;>
    rw [C9_advisor_tips [⟨"Office", 15000⟩] hsum] <;> rfl

end FreelancerTax
